import Mathlib

/-!
Shallow embedding of the `am-i-vibing` detection engine.

The rule-evaluation engine is translated from
`src/packages/am-i-vibing/src/detector.ts` (functions `checkEnvVar`,
`checkEnvVars`, `checkProcess`, `runCustomDetectors`,
`createDetectedResult`, `detectAgenticEnvironment`, `isProvider`,
`isAgent`, `isInteractive`, `isHybrid`), and the signature registry from
the `providers` module (the registry revision with ids `claude-code`,
`cursor-agent`, ..., `zed`).

Modelling conventions:
  - an environment snapshot is an association list of string bindings
    (`Record<string, string | undefined>` with `undefined` keys omitted);
  - the process-ancestry collaborator (`getProcessAncestry()`) is an
    explicit input of type `Except String (List AncestorProcess)`: the
    `error` case models the collaborator throwing, `ok` the returned list;
  - a custom detector (a zero-argument boolean predicate that may throw)
    is `Option Bool`: `none` models a throw, `some b` a returned value;
  - JavaScript string truthiness (`Boolean(s)` is false for `undefined`
    and for the empty string) is modelled by `jsTruthy`.
-/

/-- Category of the detected AI coding environment
(`AgenticType` in `types.ts`). -/
inductive AgenticType where
  | agent
  | interactive
  | hybrid
deriving DecidableEq, Repr

/-- Environment snapshot: an association list of set variables. A variable
that is absent from the list models both a missing key and a key bound to
`undefined`. -/
abbrev Env := List (String × String)

/-- Lookup of `env[name]` on a snapshot; `none` models `undefined`. -/
def envGet (env : Env) (name : String) : Option String :=
  (env.find? (fun p => p.1 == name)).map (fun p => p.2)

/-- JavaScript truthiness of a `string | undefined` value: `undefined` and
the empty string are falsy, every other string is truthy. -/
def jsTruthy : Option String → Bool
  | none => false
  | some s => !s.isEmpty

/-- Environment variable definition (`EnvVarDefinition` in `types.ts`):
either a bare variable name (presence check) or a `[name, expected]`
tuple (value-match check). -/
inductive EnvVarDefinition where
  | name (n : String)
  | pair (n v : String)
deriving DecidableEq, Repr

/-- Environment variable group with `any` / `all` / `none` clauses
(`EnvVarGroup` in `types.ts`); an absent clause is `Option.none`. -/
structure EnvVarGroup where
  any : Option (List EnvVarDefinition)
  all : Option (List EnvVarDefinition)
  none : Option (List EnvVarDefinition)
deriving DecidableEq, Repr

/-- Entry of a provider's `envVars` list, which `checkEnvVars` accepts as
the TypeScript union `EnvVarGroup | EnvVarDefinition`. -/
inductive EnvVarCheck where
  | single (d : EnvVarDefinition)
  | group (g : EnvVarGroup)
deriving DecidableEq, Repr

/-- Ancestor process descriptor from the `process-ancestry` collaborator;
the `command` field is optional (`command?.includes(...)` in the source). -/
structure AncestorProcess where
  command : Option String
deriving DecidableEq, Repr

/-- Behaviour of one `getProcessAncestry()` call: `ok` is a returned
ancestor list, `error` models the collaborator throwing. -/
abbrev Ancestry := Except String (List AncestorProcess)

/-- Custom detector behaviour: `some b` models the zero-argument predicate
returning `b`, `none` models it throwing. -/
abbrev CustomDetector := Option Bool

/-- Provider signature (`ProviderConfig`): identity plus the check data.
The registry revision embedded here stores condition groups in the
separate `envVarGroups` field while `detectAgenticEnvironment` only scans
`envVars` (whose entries may themselves be groups). -/
structure ProviderConfig where
  id : String
  name : String
  type : AgenticType
  envVars : List EnvVarCheck
  envVarGroups : List EnvVarGroup
  processChecks : List String
  customDetectors : List CustomDetector
deriving DecidableEq, Repr

/-- Result of detection (`DetectionResult` in `types.ts`). -/
structure DetectionResult where
  isAgentic : Bool
  id : Option String
  name : Option String
  type : Option AgenticType
deriving DecidableEq, Repr

/-- Check of a single environment variable definition, translated from
`checkEnvVar` in `detector.ts`:
`Boolean(actualValue && (!expectedValue || actualValue === expectedValue))`. -/
def checkEnvVar (envVarDef : EnvVarDefinition) (env : Env) : Bool :=
  let envVar := match envVarDef with
    | .name n => n
    | .pair n _ => n
  let expectedValue : Option String := match envVarDef with
    | .name _ => none
    | .pair _ v => some v
  let actualValue := envGet env envVar
  jsTruthy actualValue &&
    (match expectedValue with
     | none => true
     | some e => e.isEmpty || actualValue == some e)

/-- Check of one `envVars` entry, translated from `checkEnvVars` in
`detector.ts`: a bare definition is delegated to `checkEnvVar`; a group
evaluates `(!any?.length || any.some) && (!all?.length || all.every) &&
(!none?.length || !none.some)`. -/
def checkEnvVars (definition : EnvVarCheck) (env : Env) : Bool :=
  match definition with
  | .single d => checkEnvVar d env
  | .group g =>
    let anyResult := match g.any with
      | none => true
      | some l => l.isEmpty || l.any (fun envVar => checkEnvVar envVar env)
    let allResult := match g.all with
      | none => true
      | some l => l.isEmpty || l.all (fun envVar => checkEnvVar envVar env)
    let noneResult := match g.none with
      | none => true
      | some l => l.isEmpty || !(l.any (fun envVar => checkEnvVar envVar env))
    anyResult && allResult && noneResult

/-- Literal substring containment, modelling JavaScript
`String.prototype.includes` (every string includes the empty string). -/
def strIncludes (hay sub : String) : Bool :=
  sub.isEmpty || (hay.splitOn sub).length ≥ 2

/-- Process-tree check, translated from `checkProcess` in `detector.ts`:
the `getProcessAncestry()` call and the scan are wrapped in `try`/`catch`,
so a throwing collaborator (the `error` case) yields `false`; otherwise
the check is true iff some ancestor's `command` contains the name. -/
def checkProcess (processName : String) (ancestry : Ancestry) : Bool :=
  match ancestry with
  | .error _ => false
  | .ok procs =>
    procs.any (fun ancestorProcess =>
      match ancestorProcess.command with
      | none => false
      | some c => strIncludes c processName)

/-- Custom-detector runner, translated from `runCustomDetectors` in
`detector.ts`: each predicate runs inside `try`/`catch` with a throw
counted as `false`; the result is `customDetectors?.some(...) ?? false`. -/
def runCustomDetectors (provider : ProviderConfig) : Bool :=
  provider.customDetectors.any (fun detector => detector.getD false)

/-- Positive detection result, translated from `createDetectedResult`. -/
def createDetectedResult (provider : ProviderConfig) : DetectionResult :=
  { isAgentic := true
    id := some provider.id
    name := some provider.name
    type := some provider.type }

/-- Registry scan of `detectAgenticEnvironment`, generalised over the
provider list it loops through (`for (const provider of providers)`): per
provider it checks `envVars`, then `processChecks`, then the custom
detectors, returning on the first success; note the source reads only
`provider.envVars`, never the `envVarGroups` field. -/
def detectCore (provs : List ProviderConfig) (env : Env) (ancestry : Ancestry) :
    DetectionResult :=
  match provs with
  | [] => { isAgentic := false, id := none, name := none, type := none }
  | provider :: rest =>
    if provider.envVars.any (fun group => checkEnvVars group env) then
      createDetectedResult provider
    else if provider.processChecks.any (fun n => checkProcess n ancestry) then
      createDetectedResult provider
    else if runCustomDetectors provider then
      createDetectedResult provider
    else
      detectCore rest env ancestry

/-- Provider registry, data translated from the `providers` module (the
revision with ids `claude-code` through `zed`). Condition groups are kept
in the `envVarGroups` field exactly as that revision stores them; the
`envVars` lists hold the bare definitions. Constructor field order:
id, name, type, envVars, envVarGroups, processChecks, customDetectors;
group field order: any, all, none. -/
def providers : List ProviderConfig := [
  ⟨"claude-code", "Claude Code", .agent,
    [.single (.name "CLAUDECODE")], [], [], []⟩,
  ⟨"cursor-agent", "Cursor Agent", .agent,
    [], [⟨none, some [.name "CURSOR_TRACE_ID",
                      .pair "PAGER" "head -n 10000 | cat"], none⟩], [], []⟩,
  ⟨"cursor", "Cursor", .interactive,
    [.single (.name "CURSOR_TRACE_ID")], [], [], []⟩,
  ⟨"github-copilot-agent", "GitHub Copilot Agent", .agent,
    [], [⟨none, some [.pair "TERM_PROGRAM" "vscode",
                      .pair "GIT_PAGER" "cat"], none⟩], [], []⟩,
  ⟨"github-copilot", "GitHub Copilot", .interactive,
    [], [⟨none, some [.pair "TERM_PROGRAM" "vscode",
                      .name "VSCODE_GIT_ASKPASS_NODE"],
          some [.name "CURSOR_TRACE_ID"]⟩], [], []⟩,
  ⟨"gemini-agent", "Gemini Agent", .agent,
    [], [], ["gemini"], []⟩,
  ⟨"replit", "Replit", .agent,
    [.single (.name "REPL_ID")], [], [], []⟩,
  ⟨"aider", "Aider", .agent,
    [.single (.name "AIDER_API_KEY")], [], ["aider"], []⟩,
  ⟨"bolt-agent", "Bolt.new Agent", .agent,
    [], [⟨none, some [.pair "SHELL" "/bin/jsh",
                      .name "npm_config_yes"], none⟩], [], []⟩,
  ⟨"bolt", "Bolt.new", .interactive,
    [], [⟨none, some [.pair "SHELL" "/bin/jsh"],
          some [.name "npm_config_yes"]⟩], [], []⟩,
  ⟨"zed-agent", "Zed Agent", .agent,
    [], [⟨none, some [.pair "TERM_PROGRAM" "zed",
                      .pair "PAGER" "cat"], none⟩], [], []⟩,
  ⟨"zed", "Zed", .interactive,
    [], [⟨none, some [.pair "TERM_PROGRAM" "zed"],
          some [.pair "PAGER" "cat"]⟩], [], []⟩]

/-- Top-level detection, translated from `detectAgenticEnvironment`: scan
the registry in registration order, first match wins; the ancestry
collaborator behaviour is threaded as an explicit input. -/
def detectAgenticEnvironment (env : Env) (ancestry : Ancestry) : DetectionResult :=
  detectCore providers env ancestry

/-- Translation of `isProvider`: display-name equality with the result
(`result.name === providerName`). -/
def isProvider (providerName : String) (env : Env) (ancestry : Ancestry) : Bool :=
  let result := detectAgenticEnvironment env ancestry
  result.name == some providerName

/-- Translation of `isAgent`:
`result.type === "agent" || result.type === "hybrid"`. -/
def isAgent (env : Env) (ancestry : Ancestry) : Bool :=
  let result := detectAgenticEnvironment env ancestry
  result.type == some AgenticType.agent || result.type == some AgenticType.hybrid

/-- Translation of `isInteractive`:
`result.type === "interactive" || result.type === "hybrid"`. -/
def isInteractive (env : Env) (ancestry : Ancestry) : Bool :=
  let result := detectAgenticEnvironment env ancestry
  result.type == some AgenticType.interactive ||
    result.type == some AgenticType.hybrid

/-- Translation of `isHybrid`: `result.type === "hybrid"`. -/
def isHybrid (env : Env) (ancestry : Ancestry) : Bool :=
  let result := detectAgenticEnvironment env ancestry
  result.type == some AgenticType.hybrid

/-- Spec-side reading of the `any` clause: at least one member condition
matches, vacuously true when the clause is absent or its list empty. -/
def anyClauseHolds (clause : Option (List EnvVarDefinition)) (env : Env) : Prop :=
  match clause with
  | none => True
  | some l => l = [] ∨ ∃ d ∈ l, checkEnvVar d env = true

/-- Spec-side reading of the `all` clause: every member condition matches,
vacuously true when the clause is absent or its list empty. -/
def allClauseHolds (clause : Option (List EnvVarDefinition)) (env : Env) : Prop :=
  match clause with
  | none => True
  | some l => ∀ d ∈ l, checkEnvVar d env = true

/-- Spec-side reading of the `none` clause: no member condition matches,
vacuously true when the clause is absent or its list empty. -/
def noneClauseHolds (clause : Option (List EnvVarDefinition)) (env : Env) : Prop :=
  match clause with
  | none => True
  | some l => ∀ d ∈ l, checkEnvVar d env = false

theorem strIsEmpty_false_iff (s : String) : s.isEmpty = false ↔ s ≠ "" := by
  rw [← Bool.not_eq_true, not_iff_not]
  exact String.isEmpty_iff s

theorem isEmpty_or_any_eq_true (l : List α) (f : α → Bool) :
    ((l.isEmpty || l.any f) = true) ↔ (l = [] ∨ ∃ a ∈ l, f a = true) := by
  cases l <;> simp

theorem isEmpty_or_all_eq_true (l : List α) (f : α → Bool) :
    ((l.isEmpty || l.all f) = true) ↔ ∀ a ∈ l, f a = true := by
  cases l <;> simp

theorem isEmpty_or_not_any_eq_true (l : List α) (f : α → Bool) :
    ((l.isEmpty || !(l.any f)) = true) ↔ ∀ a ∈ l, f a = false := by
  cases l with
  | nil => simp
  | cons a as =>
    simp [List.any_eq_true, Bool.not_eq_true]

theorem eq_nil_or_forall_mem (l : List α) (p : α → Prop) :
    (l = [] ∨ ∀ a ∈ l, p a) ↔ ∀ a ∈ l, p a := by
  constructor
  · rintro (rfl | h)
    · intro a ha
      exact absurd ha (List.not_mem_nil a)
    · exact h
  · exact Or.inr

/-- C2: the group evaluator returns the conjunction of the three clause
results (`any` as at-least-one, `all` as every, `none` as no-member, each
vacuously true when absent or empty), and a group with all three clauses
absent matches every environment unconditionally. -/
theorem checkEnvVars_group_clause_conjunction (g : EnvVarGroup) (env : Env) :
    (checkEnvVars (.group g) env = true ↔
      anyClauseHolds g.any env ∧ allClauseHolds g.all env ∧
        noneClauseHolds g.none env) ∧
    checkEnvVars (.group ⟨none, none, none⟩) env = true := by
  refine ⟨?_, rfl⟩
  obtain ⟨a, al, no⟩ := g
  simp only [checkEnvVars, anyClauseHolds, allClauseHolds, noneClauseHolds]
  cases a <;> cases al <;> cases no <;>
    simp [isEmpty_or_any_eq_true, isEmpty_or_all_eq_true,
      isEmpty_or_not_any_eq_true, eq_nil_or_forall_mem, and_assoc]

/-- C2 witness: the conjunction instantiated at the all-absent group,
which matches the empty environment unconditionally. -/
theorem checkEnvVars_group_clause_conjunction_witness :
    checkEnvVars (.group ⟨none, none, none⟩) [] = true :=
  (checkEnvVars_group_clause_conjunction ⟨none, none, none⟩ []).2

/-- C3 counterexample: for the ValueMatch condition `["X", ""]` (expected
value the empty string) and a snapshot binding `X` to `"v"`, the condition
evaluates true although the stored value is not equal to the expected
empty string — the empty expected value degenerates to a presence check. -/
theorem checkEnvVar_emptyExpected_counterexample :
    checkEnvVar (.pair "X" "") [("X", "v")] = true ∧
      envGet [("X", "v")] "X" = some "v" ∧ envGet [("X", "v")] "X" ≠ some "" := by
  decide

/-- C3 amended: a Presence condition is true iff the snapshot maps the
name to a non-empty string; a ValueMatch condition with a non-empty
expected value is true iff the snapshot maps the name to exactly that
string (case-sensitively, with no trimming); a ValueMatch condition whose
expected value is the empty string behaves as the Presence condition. -/
theorem checkEnvVar_semantics (env : Env) (n e : String) :
    (checkEnvVar (.name n) env = true ↔
      ∃ s, envGet env n = some s ∧ s ≠ "") ∧
    (e ≠ "" →
      (checkEnvVar (.pair n e) env = true ↔ envGet env n = some e)) ∧
    checkEnvVar (.pair n "") env = checkEnvVar (.name n) env := by
  refine ⟨?_, fun he => ?_, ?_⟩
  · simp only [checkEnvVar, jsTruthy]
    cases envGet env n with
    | none => simp
    | some s => simp [strIsEmpty_false_iff, Bool.not_eq_true']
  · simp only [checkEnvVar, jsTruthy]
    have hee : e.isEmpty = false := (strIsEmpty_false_iff e).mpr he
    cases h : envGet env n with
    | none => simp
    | some s =>
      simp only [hee, Bool.false_or, Option.some.injEq, beq_iff_eq,
        Bool.and_eq_true, Bool.not_eq_true', Option.some_inj]
      constructor
      · rintro ⟨_, rfl⟩; rfl
      · rintro rfl; exact ⟨(strIsEmpty_false_iff _).mpr he, rfl⟩
  · have h0 : ("" : String).isEmpty = true := by decide
    simp [checkEnvVar, h0]

/-- C3 witness: instantiation of the amended value-match clause at a
concrete snapshot and a concrete non-empty expected value. -/
theorem checkEnvVar_semantics_witness :
    ("b" : String) ≠ "" ∧ checkEnvVar (.pair "A" "b") [("A", "b")] = true :=
  ⟨by decide,
    ((checkEnvVar_semantics [("A", "b")] "A" "b").2.1 (by decide)).mpr
      (by decide)⟩

/-- C6: an environment containing only the unrelated binding
`RANDOM_VARIABLE="some-value"`, with empty ancestry, yields the
no-detection result (matched false, all identity fields null); note the
embedded registry attaches no custom detectors to any provider. -/
theorem detect_unrelatedVariable_noDetection :
    detectAgenticEnvironment [("RANDOM_VARIABLE", "some-value")] (.ok []) =
      { isAgentic := false, id := none, name := none, type := none } := by
  decide

/-- C5: the convenience predicates derive from the detection result's
category exactly as specified — `isAgent` is true iff the category is
`agent` or `hybrid`, `isInteractive` iff `interactive` or `hybrid`,
`isHybrid` iff exactly `hybrid`; hence `isHybrid` implies both `isAgent`
and `isInteractive`. -/
theorem category_derivation (env : Env) (anc : Ancestry) :
    (isAgent env anc = true ↔
      ((detectAgenticEnvironment env anc).type = some .agent ∨
        (detectAgenticEnvironment env anc).type = some .hybrid)) ∧
    (isInteractive env anc = true ↔
      ((detectAgenticEnvironment env anc).type = some .interactive ∨
        (detectAgenticEnvironment env anc).type = some .hybrid)) ∧
    (isHybrid env anc = true ↔
      (detectAgenticEnvironment env anc).type = some .hybrid) ∧
    (isHybrid env anc = true →
      isAgent env anc = true ∧ isInteractive env anc = true) := by
  simp only [isAgent, isInteractive, isHybrid, Bool.or_eq_true, beq_iff_eq]
  tauto

/-- C5 witness: the derivation instantiated at the Claude Code
environment, whose detected category is `agent`. -/
theorem category_derivation_witness :
    isAgent [("CLAUDECODE", "true")] (.ok []) = true :=
  (category_derivation [("CLAUDECODE", "true")] (.ok [])).1.mpr
    (Or.inl (by decide))

theorem detectCore_ancestry_congr (provs : List ProviderConfig) (env : Env)
    (a b : Ancestry) (h : ∀ n, checkProcess n a = checkProcess n b) :
    detectCore provs env a = detectCore provs env b := by
  induction provs with
  | nil => rfl
  | cons p rest ih => simp only [detectCore, h, ih]

theorem detectCore_errorAncestry (provs : List ProviderConfig) (env : Env)
    (msg : String) :
    detectCore provs env (.error msg) = detectCore provs env (.ok []) :=
  detectCore_ancestry_congr provs env _ _ (fun _ => rfl)

/-- C7: when the process-ancestry collaborator throws (the `error`
behaviour), the process check evaluates exactly as on an empty ancestor
list, namely `false`, and the whole detection result is unchanged — the
error never reaches the caller. -/
theorem checkProcess_collaborator_failure (processName msg : String) :
    checkProcess processName (.error msg) = false ∧
    checkProcess processName (.error msg) = checkProcess processName (.ok []) ∧
    ∀ env : Env,
      detectAgenticEnvironment env (.error msg) =
        detectAgenticEnvironment env (.ok []) :=
  ⟨rfl, rfl, fun env => detectCore_errorAncestry providers env msg⟩

/-- C8: a throwing custom predicate counts as `false` for that predicate
only — the custom check is true iff some non-throwing predicate returned
true, and splicing a throwing predicate anywhere into the list never
changes the outcome (it neither aborts the remaining predicates nor
causes a match by itself). -/
theorem runCustomDetectors_fault_tolerance (p : ProviderConfig) :
    (runCustomDetectors p = true ↔
      ∃ d ∈ p.customDetectors, d = some true) ∧
    ∀ ds₁ ds₂ : List CustomDetector,
      runCustomDetectors
          { p with customDetectors := ds₁ ++ Option.none :: ds₂ } =
        runCustomDetectors { p with customDetectors := ds₁ ++ ds₂ } := by
  constructor
  · simp only [runCustomDetectors, List.any_eq_true]
    constructor
    · rintro ⟨d, hd, hdt⟩
      cases d with
      | none => simp at hdt
      | some b =>
        cases b with
        | false => simp at hdt
        | true => exact ⟨some true, hd, rfl⟩
    · rintro ⟨d, hd, rfl⟩
      exact ⟨some true, hd, rfl⟩
  · intro ds₁ ds₂
    simp [runCustomDetectors, List.any_append]

/-- C8 witness: the custom-check equivalence instantiated at a provider
carrying one returning predicate. -/
theorem runCustomDetectors_fault_tolerance_witness :
    runCustomDetectors ⟨"p", "P", .agent, [], [], [], [some true]⟩ = true :=
  ((runCustomDetectors_fault_tolerance
      ⟨"p", "P", .agent, [], [], [], [some true]⟩).1).mpr
    ⟨some true, by simp, rfl⟩

theorem detectCore_shape (provs : List ProviderConfig) (env : Env)
    (anc : Ancestry) :
    detectCore provs env anc =
        { isAgentic := false, id := none, name := none, type := none } ∨
      ∃ p ∈ provs, detectCore provs env anc = createDetectedResult p := by
  induction provs with
  | nil => exact Or.inl rfl
  | cons p rest ih =>
    simp only [detectCore]
    by_cases h1 : (p.envVars.any fun group => checkEnvVars group env) = true
    · rw [if_pos h1]
      exact Or.inr ⟨p, by simp, rfl⟩
    · rw [if_neg h1]
      by_cases h2 : (p.processChecks.any fun n => checkProcess n anc) = true
      · rw [if_pos h2]
        exact Or.inr ⟨p, by simp, rfl⟩
      · rw [if_neg h2]
        by_cases h3 : runCustomDetectors p = true
        · rw [if_pos h3]
          exact Or.inr ⟨p, by simp, rfl⟩
        · rw [if_neg h3]
          rcases ih with h | ⟨q, hq, hh⟩
          · exact Or.inl h
          · exact Or.inr ⟨q, List.mem_cons_of_mem _ hq, hh⟩

/-- C9: the detection result is fully populated or fully empty — when
matched it carries the id, name and type of some provider present in the
registry, and when unmatched all three identity fields are null. -/
theorem detection_result_shape (env : Env) (anc : Ancestry) :
    ((detectAgenticEnvironment env anc).isAgentic = true →
      ∃ p ∈ providers,
        detectAgenticEnvironment env anc =
          { isAgentic := true, id := some p.id, name := some p.name,
            type := some p.type }) ∧
    ((detectAgenticEnvironment env anc).isAgentic = false →
      detectAgenticEnvironment env anc =
        { isAgentic := false, id := none, name := none, type := none }) := by
  rcases detectCore_shape providers env anc with h | ⟨p, hp, h⟩
  · refine ⟨fun ht => ?_, fun _ => h⟩
    rw [detectAgenticEnvironment] at ht
    rw [h] at ht
    simp at ht
  · refine ⟨fun _ => ⟨p, hp, h⟩, fun hf => ?_⟩
    rw [detectAgenticEnvironment] at hf
    rw [h] at hf
    simp [createDetectedResult] at hf

/-- C9 witness: the populated branch instantiated at the Claude Code
environment. -/
theorem detection_result_shape_witness :
    (detectAgenticEnvironment [("CLAUDECODE", "true")] (.ok [])).isAgentic =
        true ∧
      ∃ p ∈ providers,
        detectAgenticEnvironment [("CLAUDECODE", "true")] (.ok []) =
          { isAgentic := true, id := some p.id, name := some p.name,
            type := some p.type } :=
  ⟨by decide,
    (detection_result_shape [("CLAUDECODE", "true")] (.ok [])).1 (by decide)⟩

/-- Replacement of every throwing custom detector of a provider by one
that returns `false`, the benign behaviour the engine's fault boundary
assigns to a throw. -/
def stripThrows (p : ProviderConfig) : ProviderConfig :=
  { p with customDetectors :=
      p.customDetectors.map (fun d => some (d.getD false)) }

theorem stripThrows_envVars (p : ProviderConfig) :
    (stripThrows p).envVars = p.envVars := rfl

theorem stripThrows_processChecks (p : ProviderConfig) :
    (stripThrows p).processChecks = p.processChecks := rfl

theorem createDetectedResult_stripThrows (p : ProviderConfig) :
    createDetectedResult (stripThrows p) = createDetectedResult p := rfl

theorem runCustomDetectors_stripThrows (p : ProviderConfig) :
    runCustomDetectors (stripThrows p) = runCustomDetectors p := by
  simp only [runCustomDetectors, stripThrows, List.any_map]
  rfl

theorem detectCore_stripThrows (provs : List ProviderConfig) (env : Env)
    (anc : Ancestry) :
    detectCore (provs.map stripThrows) env anc = detectCore provs env anc := by
  induction provs with
  | nil => rfl
  | cons p rest ih =>
    simp only [List.map_cons, detectCore, stripThrows_envVars,
      stripThrows_processChecks, createDetectedResult_stripThrows,
      runCustomDetectors_stripThrows, ih]

/-- C10: every error branch is absorbed locally, so detection is a total
function of its inputs — an erroring ancestry collaborator is
indistinguishable from an empty ancestor list, replacing every throwing
custom detector by a false-returning one changes nothing, and the derived
predicates inherit the same insensitivity. -/
theorem detection_error_absorption (provs : List ProviderConfig) (env : Env)
    (anc : Ancestry) (msg : String) :
    (detectCore provs env (.error msg) = detectCore provs env (.ok [])) ∧
    (detectCore (provs.map stripThrows) env anc = detectCore provs env anc) ∧
    (isAgent env (.error msg) = isAgent env (.ok [])) ∧
    (isInteractive env (.error msg) = isInteractive env (.ok [])) ∧
    (isHybrid env (.error msg) = isHybrid env (.ok [])) ∧
    ∀ name, isProvider name env (.error msg) = isProvider name env (.ok []) := by
  refine ⟨detectCore_errorAncestry provs env msg,
    detectCore_stripThrows provs env anc, ?_, ?_, ?_, fun name => ?_⟩ <;>
    simp only [isAgent, isInteractive, isHybrid, isProvider,
      detectAgenticEnvironment, detectCore_errorAncestry]

/-- C1: evaluation of the code at the claimed input — for the environment
`{ CURSOR_TRACE_ID: "x", PAGER: "head -n 10000 | cat" }` with empty
ancestry the detector returns the plain `cursor` signature, not the
`cursor-agent` signature the claim (and the package's own test suite)
expects, because `detectAgenticEnvironment` scans only `envVars` and the
registry stores the Cursor Agent rule in the unread `envVarGroups` field. -/
theorem detect_cursorAgentEnv_returns_cursor :
    detectAgenticEnvironment [("CURSOR_TRACE_ID", "x"),
        ("PAGER", "head -n 10000 | cat")] (.ok []) =
      { isAgentic := true, id := some "cursor", name := some "Cursor",
        type := some .interactive } := by
  decide

/-- C4: evaluation of the code at the claimed inputs — the Zed and
Bolt.new rules live exclusively in the unread `envVarGroups` field, so all
four environments of the claim yield the no-detection result instead of
the claimed `zed` / `zed-agent` / `bolt` / `bolt-agent` detections the
package's own test suite also expects. -/
theorem detect_zedAndBoltEnvs_noDetection :
    (detectAgenticEnvironment [("TERM_PROGRAM", "zed")] (.ok []) =
      { isAgentic := false, id := none, name := none, type := none }) ∧
    (detectAgenticEnvironment [("TERM_PROGRAM", "zed"), ("PAGER", "cat")]
        (.ok []) =
      { isAgentic := false, id := none, name := none, type := none }) ∧
    (detectAgenticEnvironment [("SHELL", "/bin/jsh")] (.ok []) =
      { isAgentic := false, id := none, name := none, type := none }) ∧
    (detectAgenticEnvironment [("SHELL", "/bin/jsh"),
        ("npm_config_yes", "true")] (.ok []) =
      { isAgentic := false, id := none, name := none, type := none }) := by
  decide
